import Mathlib

set_option maxRecDepth 20000

deriving instance DecidableEq for Except

namespace HabitTracker

/-! Shallow embedding of `src/habit_tracker.py`.

The app stores four record collections in a remote store (users,
access_codes, habits, completions) and computes period keys and streaks
from calendar dates.  Dates are embedded as year/month/day triples;
`datetime.now()` becomes an explicit `now : Date` argument; the fallible
`datetime.replace` used by the monthly streak step returns `Except` so
that a Python `ValueError` is visible as `Except.error`. -/

/-- Calendar date as carried by Python `datetime`; only the year, month and
day fields matter here, since period keys never read the time of day. -/
structure Date where
  year : Nat
  month : Nat
  day : Nat
deriving DecidableEq, Repr

/-- Gregorian leap-year rule used by Python `datetime`. -/
def isLeapYear (y : Nat) : Bool :=
  y % 4 == 0 && (y % 100 != 0 || y % 400 == 0)

/-- Number of days in month `m` of year `y`, as enforced by `datetime.replace`
when it validates the day field. -/
def daysInMonth (y m : Nat) : Nat :=
  if m == 2 then (if isLeapYear y then 29 else 28)
  else if m == 4 || m == 6 || m == 9 || m == 11 then 30
  else 31

/-- One day earlier: the effect of `date - timedelta(days=1)` on the
year/month/day fields of a valid date. -/
def Date.predDay : Date → Date
  | ⟨y, m, d⟩ =>
    if d > 1 then ⟨y, m, d - 1⟩
    else if m > 1 then ⟨y, m - 1, daysInMonth y (m - 1)⟩
    else ⟨y - 1, 12, 31⟩

/-- `n` days earlier: `date - timedelta(days=n)`; `timedelta(weeks=1)` is
seven days. -/
def Date.subDays (d : Date) : Nat → Date
  | 0 => d
  | n + 1 => Date.predDay (d.subDays n)

/-- Days in all years before year `y` (proleptic Gregorian), as in the
ordinal arithmetic underlying `datetime`. -/
def daysBeforeYear (y : Nat) : Nat :=
  365 * (y - 1) + (y - 1) / 4 - (y - 1) / 100 + (y - 1) / 400

/-- Days in year `y` strictly before month `m`. -/
def daysBeforeMonth (y m : Nat) : Nat :=
  (List.range (m - 1)).foldl (fun acc i => acc + daysInMonth y (i + 1)) 0

/-- Proleptic Gregorian ordinal of a date, matching Python `date.toordinal`
(January 1 of year 1 has ordinal 1). -/
def Date.toOrdinal (d : Date) : Nat :=
  daysBeforeYear d.year + daysBeforeMonth d.year d.month + d.day

/-- Day of the week with Monday = 0, matching Python `date.weekday()`. -/
def Date.weekday (d : Date) : Nat :=
  (d.toOrdinal + 6) % 7

/-- One-based day of the year. -/
def Date.dayOfYear (d : Date) : Nat :=
  daysBeforeMonth d.year d.month + d.day

/-- Week of the year in the `strftime` directive `%W` convention: weeks start
on Monday, and days before the first Monday of the year are week 0. -/
def weekOfYearW (d : Date) : Nat :=
  (d.dayOfYear + 6 - d.weekday) / 7

/-- Decimal rendering of `n` left-padded with zeros to width `w`, as the
zero-padded `strftime` directives produce. -/
def padZero (w n : Nat) : String :=
  let s := Nat.repr n
  String.mk (List.replicate (w - s.length) ('0')) ++ s

/-- Character-list worker for `strftime`: handles the directives `%Y`, `%m`,
`%d` and `%W`, the only ones `get_period_key` uses, and copies every other
character verbatim. -/
def strftimeAux (d : Date) : List Char → String
  | [] => ("")
  | '%' :: c :: rest =>
    (if c = ('Y') then padZero 4 d.year
     else if c = ('m') then padZero 2 d.month
     else if c = ('d') then padZero 2 d.day
     else if c = ('W') then padZero 2 (weekOfYearW d)
     else String.mk ['%', c]) ++ strftimeAux d rest
  | c :: rest => String.mk [c] ++ strftimeAux d rest

/-- Model of Python `date.strftime` restricted to the directives the source
uses. -/
def strftime (d : Date) (fmt : String) : String :=
  strftimeAux d fmt.data

/-- Embeds `get_period_key` (src/habit_tracker.py lines 143-154).  The
`date=None` default becomes an explicit argument: every call in the source
either passes a date or means "now", which callers here pass explicitly. -/
def get_period_key (habit_type : String) (date : Date) : String :=
  if habit_type = ("daily") then strftime date ("%Y-%m-%d")
  else if habit_type = ("weekly") then strftime date ("%Y-W%W")
  else if habit_type = ("monthly") then strftime date ("%Y-%m")
  else strftime date ("%Y-%m-%d")

/-- Lookup in the in-memory completions dict (period key to list of habit
names) that `load_completions` builds; Python dict keys are unique, so an
association list with first-match lookup is faithful. -/
def dictLookup : List (String × List String) → String → Option (List String)
  | [], _ => none
  | (k, v) :: rest, key => if k = key then some v else dictLookup rest key

/-- The membership test `period_key in completions and habit_name in
completions[period_key]` from line 180 of the source. -/
def completions_has (completions : List (String × List String))
    (period_key habit_name : String) : Bool :=
  match dictLookup completions period_key with
  | some habits => habits.contains habit_name
  | none => false

/-- One backward step of the streak scan (lines 182-190): a day for daily, a
week for weekly, a `datetime.replace` month step (which raises `ValueError`,
here `Except.error`, when the day does not exist in the target month) for
monthly, and no movement at all for any other habit type, exactly as the
`if/elif` chain leaves `check_date` unchanged then. -/
def stepBack (habit_type : String) (d : Date) : Except String Date :=
  if habit_type = ("daily") then Except.ok (d.subDays 1)
  else if habit_type = ("weekly") then Except.ok (d.subDays 7)
  else if habit_type = ("monthly") then
    (if d.month = 1 then
      (if d.day ≤ 31 then Except.ok ⟨d.year - 1, 12, d.day⟩
       else Except.error ("ValueError: day is out of range for month"))
     else
      (if d.day ≤ daysInMonth d.year (d.month - 1) then
        Except.ok ⟨d.year, d.month - 1, d.day⟩
       else Except.error ("ValueError: day is out of range for month")))
  else Except.ok d

/-- The `while True` loop of `get_streak` (lines 177-195), written with a
structural fuel argument so that it computes by kernel reduction.  Each pass
re-derives the period key, counts a hit, steps the date backward (possibly
raising), and stops after the count passes 365; the fuel only bounds the
recursion and, at the initial fuel of 367, is never exhausted because the
count check stops the loop first. -/
def streakLoop (habit_name habit_type : String)
    (completions : List (String × List String)) :
    Nat → Date → Nat → Except String Nat
  | 0, _, streak => Except.ok streak
  | fuel + 1, check_date, streak =>
    let period_key := get_period_key habit_type check_date
    if completions_has completions period_key habit_name then
      match stepBack habit_type check_date with
      | Except.error e => Except.error e
      | Except.ok d' =>
        if streak + 1 > 365 then Except.ok (streak + 1)
        else streakLoop habit_name habit_type completions fuel d' (streak + 1)
    else Except.ok streak

/-- Embeds `get_streak` (lines 172-197); `datetime.now()` is the explicit
`now` argument, and a Python `ValueError` surfaces as `Except.error`. -/
def get_streak (habit_name habit_type : String)
    (completions : List (String × List String)) (now : Date) :
    Except String Nat :=
  streakLoop habit_name habit_type completions 367 now 0

/-- Row of the `users` table. -/
structure UserRow where
  username : String
  password_hash : String
deriving DecidableEq, Repr

/-- Row of the `access_codes` table; `used_by` is null until the code is
consumed. -/
structure AccessCodeRow where
  code : String
  used : Bool
  used_by : Option String
deriving DecidableEq, Repr

/-- Row of the `habits` table; `created_at` is generated by the store and
never consulted by the operations modelled here, so it is omitted. -/
structure HabitRow where
  name : String
  username : String
  habit_type : String
deriving DecidableEq, Repr

/-- Row of the `completions` table. -/
structure CompletionRow where
  period_key : String
  habit_name : String
  username : String
deriving DecidableEq, Repr

/-- The four record collections held by the remote store.  A chained
`.delete().eq(...)...` removes every row matching all equality filters
(here: keep the rows that fail some filter), `.insert(...)` appends a row,
and `.update(...).eq(...)` rewrites every matching row. -/
structure Store where
  users : List UserRow
  access_codes : List AccessCodeRow
  habits : List HabitRow
  completions : List CompletionRow
deriving DecidableEq, Repr

/-- Models `hashlib.sha256(...).hexdigest()` (line 53-55) by an injective
placeholder; the digest itself is external library code and no claim
inspects its value. -/
def hash_password (password : String) : String :=
  ("sha256:") ++ password

/-- Embeds `user_exists` (lines 89-92): a username filter with a non-empty
result check. -/
def user_exists (s : Store) (username : String) : Bool :=
  s.users.any (fun r => r.username == username)

/-- Embeds `verify_access_code` (lines 58-61): some row has this code and
`used = False`. -/
def verify_access_code (s : Store) (code : String) : Bool :=
  s.access_codes.any (fun r => r.code == code && r.used == false)

/-- Embeds `mark_access_code_used` (lines 64-66). -/
def mark_access_code_used (s : Store) (code username : String) : Store :=
  { s with access_codes :=
      (s.access_codes.map (fun r =>
        if r.code == code then { r with used := true, used_by := some username }
        else r)) }

/-- Embeds `create_user` (lines 69-79).  The source inserts inside
`try/except` and returns `False` on any exception; the store's unique key on
`username` makes the insert fail exactly on a duplicate username, which is
what the boolean result reflects here. -/
def create_user (s : Store) (username password : String) : Store × Bool :=
  if user_exists s username then (s, false)
  else ({ s with users := s.users ++ [⟨username, hash_password password⟩] }, true)

/-- Embeds `remove_habit` (lines 110-113): delete habit rows matching name
and username, then delete completion rows matching habit name and
username. -/
def remove_habit (s : Store) (username habit_name : String) : Store :=
  { s with
    habits :=
      (s.habits.filter
        (fun r => !(r.name == habit_name && r.username == username))),
    completions :=
      (s.completions.filter
        (fun r => !(r.habit_name == habit_name && r.username == username))) }

/-- Predicate picking out the completion rows for one
(period key, habit name, username) triple, the filters used by the delete
branch of `toggle_completion`. -/
def matches_completion (period_key habit_name username : String)
    (r : CompletionRow) : Bool :=
  r.period_key == period_key && r.habit_name == habit_name &&
    r.username == username

/-- Embeds `toggle_completion` (lines 131-140): an unconditional insert when
completing, a three-filter delete when un-completing. -/
def toggle_completion (s : Store) (username period_key habit_name : String)
    (is_completed : Bool) : Store :=
  if is_completed then
    { s with completions := s.completions ++ [⟨period_key, habit_name, username⟩] }
  else
    { s with completions :=
        (s.completions.filter
          (fun r => !(matches_completion period_key habit_name username r))) }

/-- The success branch of the signup handler (lines 247-252 of
`show_login_page`): call `create_user`, and only when it reports success call
`mark_access_code_used`.  The surrounding validation chain (non-empty fields,
password length and match, `user_exists`, `verify_access_code`) appears as
hypotheses of the theorems about this step. -/
def signup_submit (s : Store) (username password code : String) : Store :=
  let step := create_user s username password
  if step.2 then mark_access_code_used step.1 code username else step.1

/-- True when some row of `access_codes` has this code with `used = True`;
the "consumed code" predicate of the signup consistency claim. -/
def code_is_used (s : Store) (code : String) : Bool :=
  s.access_codes.any (fun r => r.code == code && r.used)

/-- The hypothesis of the streak claim, phrased along the loop's own walk:
the current period and each of the next `n - 1` backward periods hold a
completion for the habit, and every backward step the loop will take on the
way (the source always steps after a hit, including the last one) succeeds
rather than raising. -/
def walk_completed (habit_name habit_type : String)
    (completions : List (String × List String)) : Date → Nat → Bool
  | _, 0 => true
  | d, n + 1 =>
    completions_has completions (get_period_key habit_type d) habit_name &&
      (match stepBack habit_type d with
       | Except.ok d' => walk_completed habit_name habit_type completions d' n
       | Except.error _ => false)

/-- The date reached after `n` backward steps, when they all succeed; the
"period before those" of the streak claim lives at `date_after _ _ N`. -/
def date_after (habit_type : String) : Date → Nat → Option Date
  | d, 0 => some d
  | d, n + 1 =>
    match stepBack habit_type d with
    | Except.ok d' => date_after habit_type d' n
    | Except.error _ => none

/-- Small concrete store used by the witnesses: one unused access code, and
two users owning a habit with the identical name. -/
def demo_store : Store :=
  { users := [],
    access_codes := [⟨("CODE1"), false, none⟩],
    habits := [⟨("run"), ("alice"), ("daily")⟩, ⟨("run"), ("bob"), ("daily")⟩],
    completions := [⟨("2024-03-10"), ("run"), ("alice")⟩,
                    ⟨("2024-03-10"), ("run"), ("bob")⟩] }

/-! Specification-side formats for the period keys, written from the spec's
words "YYYY-MM-DD", "YYYY-W<week-of-year>" and "YYYY-MM", to be compared
with the `strftime`-based code path of `get_period_key`. -/

/-- Daily period key as the spec words it: zero-padded year, month and day
joined by hyphens. -/
def spec_daily_key (d : Date) : String :=
  padZero 4 d.year ++ ("-") ++ padZero 2 d.month ++ ("-") ++ padZero 2 d.day

/-- Weekly period key as the spec words it: year, then a W-prefixed week of
the year in the host library's `%W` convention. -/
def spec_weekly_key (d : Date) : String :=
  padZero 4 d.year ++ ("-W") ++ padZero 2 (weekOfYearW d)

/-- Monthly period key as the spec words it: zero-padded year and month. -/
def spec_monthly_key (d : Date) : String :=
  padZero 4 d.year ++ ("-") ++ padZero 2 d.month

/-- Expansion of the daily format string through the `strftime` model. -/
theorem strftime_daily (d : Date) : strftime d ("%Y-%m-%d") = spec_daily_key d := by
  apply String.ext
  simp [strftime, strftimeAux, spec_daily_key, String.data_append]

/-- Expansion of the weekly format string through the `strftime` model. -/
theorem strftime_weekly (d : Date) : strftime d ("%Y-W%W") = spec_weekly_key d := by
  apply String.ext
  simp [strftime, strftimeAux, spec_weekly_key, String.data_append]

/-- Expansion of the monthly format string through the `strftime` model. -/
theorem strftime_monthly (d : Date) : strftime d ("%Y-%m") = spec_monthly_key d := by
  apply String.ext
  simp [strftime, strftimeAux, spec_monthly_key, String.data_append]

/-- C5: for every date, `get_period_key` yields the "YYYY-MM-DD" daily
format, the "YYYY-W<week-of-year>" weekly format in the host `%W`
convention, and the "YYYY-MM" monthly format; it is total (no error case
exists), and every habit type outside daily/weekly/monthly falls back to
the daily format. -/
theorem C5_period_key_formats (d : Date) :
    get_period_key ("daily") d = spec_daily_key d ∧
    get_period_key ("weekly") d = spec_weekly_key d ∧
    get_period_key ("monthly") d = spec_monthly_key d ∧
    (∀ t : String, t ≠ ("daily") → t ≠ ("weekly") → t ≠ ("monthly") →
      get_period_key t d = spec_daily_key d) := by
  refine ⟨?_, ?_, ?_, ?_⟩
  · rw [get_period_key, if_pos rfl, strftime_daily]
  · rw [get_period_key, if_neg (by decide), if_pos rfl, strftime_weekly]
  · rw [get_period_key, if_neg (by decide), if_neg (by decide), if_pos rfl,
      strftime_monthly]
  · intro t h1 h2 h3
    rw [get_period_key, if_neg h1, if_neg h2, if_neg h3, strftime_daily]

/-- C5 witness: the fallback hypothesis instantiated at the habit type
"yearly" and the spec's example date. -/
theorem C5_period_key_formats_witness :
    get_period_key ("yearly") ⟨2024, 3, 10⟩ = spec_daily_key ⟨2024, 3, 10⟩ :=
  (C5_period_key_formats ⟨2024, 3, 10⟩).2.2.2 ("yearly")
    (by decide) (by decide) (by decide)

/-- C4: if the completion map has no completion for the habit under the
current period key, the streak loop stops on its first membership test and
`get_streak` returns 0; in particular a habit with no completions at all
has streak 0. -/
theorem C4_no_current_completion_streak_zero
    (habit_name habit_type : String)
    (completions : List (String × List String)) (now : Date)
    (h : completions_has completions (get_period_key habit_type now) habit_name = false) :
    get_streak habit_name habit_type completions now = Except.ok 0 := by
  unfold get_streak
  rw [show (367 : Nat) = 366 + 1 from rfl]
  simp [streakLoop, h]

/-- C4 witness: a habit with zero completions anywhere has streak 0. -/
theorem C4_no_current_completion_streak_zero_witness :
    completions_has [] (get_period_key ("daily") ⟨2024, 3, 10⟩) ("h") = false ∧
    get_streak ("h") ("daily") [] ⟨2024, 3, 10⟩ = Except.ok 0 :=
  ⟨by decide,
   C4_no_current_completion_streak_zero ("h") ("daily") [] ⟨2024, 3, 10⟩ (by decide)⟩

/-- C2: evaluation of the code at the failing input.  With a monthly habit,
"now" = 2024-03-31 and the current month completed, the backward month step
executes `check_date.replace(month=2)`, which asks for February 31 and
raises `ValueError`, so `get_streak` does not return a count: the claim's
"total, never raises" reading is what the code breaks. -/
theorem C2_monthly_step_raises :
    get_streak ("h") ("monthly") [(("2024-03"), [("h")])] ⟨2024, 3, 31⟩ =
      Except.error ("ValueError: day is out of range for month") := by decide

/-- C6: from any starting store, toggling a completion off and then back on
for the same (username, habit name, period key) leaves exactly one matching
completion record: the delete removes every matching row (duplicates
included) and the insert adds exactly one back. -/
theorem C6_toggle_off_on_one_record (s : Store)
    (username period_key habit_name : String) :
    ((toggle_completion (toggle_completion s username period_key habit_name false)
        username period_key habit_name true).completions.countP
      (fun r => matches_completion period_key habit_name username r)) = 1 := by
  simp [toggle_completion, List.countP_append, List.countP_filter,
    List.countP_cons, matches_completion]

/-- C7: after `remove_habit`, no habit row with that name remains for that
user and no completion row references that habit name for that user. -/
theorem C7_remove_habit_cascades (s : Store) (username habit_name : String) :
    ((remove_habit s username habit_name).habits.all
        (fun r => !(r.name == habit_name && r.username == username))) = true ∧
    ((remove_habit s username habit_name).completions.all
        (fun r => !(r.habit_name == habit_name && r.username == username))) = true := by
  constructor <;>
    simp only [remove_habit, List.all_eq_true, List.mem_filter] <;>
    exact fun x h => h.2

/-- C9: the completing branch of `toggle_completion` appends a row without
any existence check, so from any store two completing calls in a row add two
matching rows; starting from a store with none, exactly two records for the
same (username, habit name, period key) remain, breaking the
one-record-per-period invariant. -/
theorem C9_unconditional_insert_duplicates (s : Store)
    (username period_key habit_name : String) :
    ((toggle_completion s username period_key habit_name true).completions
      = s.completions ++ [⟨period_key, habit_name, username⟩]) ∧
    ((toggle_completion (toggle_completion s username period_key habit_name true)
        username period_key habit_name true).completions.countP
      (fun r => matches_completion period_key habit_name username r)
      = (s.completions.countP
          (fun r => matches_completion period_key habit_name username r)) + 2) := by
  constructor
  · simp [toggle_completion]
  · simp [toggle_completion, List.countP_append, matches_completion]

/-- Rows kept by an inner filter stay untouched by it whenever the outer
filter's predicate forces the inner one, so the two filters commute away. -/
theorem filter_keep_other {α : Type} (l : List α) (q p : α → Bool)
    (hqp : ∀ r, q r = true → p r = true) :
    (l.filter p).filter q = l.filter q := by
  rw [List.filter_filter]
  apply List.filter_congr
  intro r _
  cases hq : q r with
  | true => simp [hq, hqp r hq]
  | false => simp [hq]

/-- C10: every delete issued by `remove_habit` and `toggle_completion`
filters by username as well, so for distinct users the other user's habit
rows and completion rows are left exactly as they were, even when both users
own a habit with the same name. -/
theorem C10_user_isolation (s : Store) (u u' period_key habit_name : String)
    (b : Bool) (h : u ≠ u') :
    ((remove_habit s u habit_name).habits.filter (fun r => r.username == u')
      = s.habits.filter (fun r => r.username == u')) ∧
    ((remove_habit s u habit_name).completions.filter (fun r => r.username == u')
      = s.completions.filter (fun r => r.username == u')) ∧
    ((toggle_completion s u period_key habit_name b).habits
      = s.habits) ∧
    ((toggle_completion s u period_key habit_name b).completions.filter
        (fun r => r.username == u')
      = s.completions.filter (fun r => r.username == u')) := by
  have husers : ∀ ru : String, (ru == u') = true → (ru == u) = false := by
    intro ru hru
    have hru' : ru = u' := by simpa using hru
    subst hru'
    simpa using fun hh => h hh.symm
  refine ⟨?_, ?_, ?_, ?_⟩
  · rw [remove_habit]
    apply filter_keep_other
    intro r hq
    simp [husers _ hq]
  · rw [remove_habit]
    apply filter_keep_other
    intro r hq
    simp [husers _ hq]
  · cases b <;> simp [toggle_completion]
  · cases b with
    | true => simp [toggle_completion, List.filter_append, h]
    | false =>
      simp only [toggle_completion, if_neg Bool.false_ne_true]
      apply filter_keep_other
      intro r hq
      simp [matches_completion, husers _ hq]

/-- C10 witness: removing alice's habit "run" leaves bob's completion rows
unchanged even though bob's habit has the identical name. -/
theorem C10_user_isolation_witness :
    (("alice" : String) ≠ ("bob")) ∧
    ((remove_habit demo_store ("alice") ("run")).completions.filter
        (fun r => r.username == ("bob"))
      = demo_store.completions.filter (fun r => r.username == ("bob"))) :=
  ⟨by decide,
   (C10_user_isolation demo_store ("alice") ("bob") ("2024-03-10") ("run") true
     (by decide)).2.1⟩

/-- C8: in the signup success path the user insert happens first and the
access code is marked used only when `create_user` reports success, so at
the intermediate state reached right after user creation (where a crash
would leave the system) the user exists and the code is still unused; in
the final state the user exists alongside the now-used code, and when
creation fails the code is never marked.  A consumed code with no user is
therefore unreachable in this flow. -/
theorem C8_signup_ordering (s : Store) (username password code : String)
    (hun : user_exists s username = false)
    (hcode : verify_access_code s code = true) :
    (create_user s username password).2 = true ∧
    user_exists (create_user s username password).1 username = true ∧
    verify_access_code (create_user s username password).1 code = true ∧
    user_exists (signup_submit s username password code) username = true ∧
    (∀ (s₂ : Store) (un pw cd : String), (create_user s₂ un pw).2 = false →
      signup_submit s₂ un pw cd = (create_user s₂ un pw).1) := by
  have hneg : ¬(user_exists s username = true) := by simp [hun]
  have hcu : create_user s username password =
      ({ s with users := s.users ++ [⟨username, hash_password password⟩] }, true) := by
    rw [create_user, if_neg hneg]
  refine ⟨?_, ?_, ?_, ?_, ?_⟩
  · rw [hcu]
  · rw [hcu]
    simp [user_exists, List.any_append]
  · rw [hcu]
    simpa [verify_access_code] using hcode
  · simp only [signup_submit]
    rw [hcu]
    simp [mark_access_code_used, user_exists, List.any_append]
  · intro s₂ un pw cd hfail
    simp [signup_submit, hfail]

/-- C8 witness: a fresh username and an unused access code signed up on the
demo store leave the created user present in the final state. -/
theorem C8_signup_ordering_witness :
    user_exists demo_store ("carol") = false ∧
    verify_access_code demo_store ("CODE1") = true ∧
    user_exists (signup_submit demo_store ("carol") ("hunter2") ("CODE1"))
      ("carol") = true :=
  ⟨by decide, by decide,
   (C8_signup_ordering demo_store ("carol") ("hunter2") ("CODE1")
     (by decide) (by decide)).2.2.2.1⟩

/-- Two runs of the streak loop from the same date and count agree whenever
both fuels exceed the iterations the 365 cap allows; the fuel is pure
scaffolding. -/
theorem streakLoop_fuel_indep (habit_name habit_type : String)
    (completions : List (String × List String)) :
    ∀ (fuel₁ fuel₂ streak : Nat) (d : Date),
      366 - streak < fuel₁ → 366 - streak < fuel₂ → streak ≤ 365 →
      streakLoop habit_name habit_type completions fuel₁ d streak =
        streakLoop habit_name habit_type completions fuel₂ d streak := by
  intro fuel₁
  induction fuel₁ with
  | zero =>
    intro fuel₂ streak d h1 h2 h3
    omega
  | succ f ih =>
    intro fuel₂ streak d h1 h2 h3
    cases fuel₂ with
    | zero => omega
    | succ f₂ =>
      simp only [streakLoop]
      cases hc : completions_has completions (get_period_key habit_type d) habit_name with
      | false => simp [hc]
      | true =>
        simp only [hc]
        cases hs : stepBack habit_type d with
        | error e => rfl
        | ok d' =>
          by_cases hcap : streak + 1 > 365
          · simp [hcap]
          · simp only [if_neg hcap]
            exact ih f₂ (streak + 1) d' (by omega) (by omega) (by omega)

/-- Any count the streak loop returns from a start below the cap stays at or
below 366: the cap check fires only after an increment, so 366 is the
largest value that escapes it. -/
theorem streakLoop_le (habit_name habit_type : String)
    (completions : List (String × List String)) :
    ∀ (fuel streak : Nat) (d : Date) (n : Nat), streak ≤ 365 →
      streakLoop habit_name habit_type completions fuel d streak = Except.ok n →
      n ≤ 366 := by
  intro fuel
  induction fuel with
  | zero =>
    intro streak d n h hres
    simp only [streakLoop] at hres
    cases hres
    omega
  | succ f ih =>
    intro streak d n h hres
    simp only [streakLoop] at hres
    cases hc : completions_has completions (get_period_key habit_type d) habit_name with
    | false =>
      rw [hc] at hres
      simp at hres
      omega
    | true =>
      rw [hc] at hres
      simp only [if_true] at hres
      cases hs : stepBack habit_type d with
      | error e => rw [hs] at hres; simp at hres
      | ok d' =>
        rw [hs] at hres
        dsimp only at hres
        by_cases hcap : streak + 1 > 365
        · rw [if_pos hcap] at hres
          simp at hres
          omega
        · rw [if_neg hcap] at hres
          exact ih (streak + 1) d' n (by omega) hres

/-- C3 counterexample: with habit type "yearly" (the source accepts any
string and then never moves `check_date`) and one completion under the
current period key, the loop counts the same period repeatedly and the cap
lets the count reach 366, so the returned streak exceeds 365. -/
theorem C3_counterexample :
    get_streak ("h") ("yearly") [(("2024-03-10"), [("h")])] ⟨2024, 3, 10⟩ =
      Except.ok 366 ∧ 366 > 365 :=
  ⟨by decide, by decide⟩

/-- C3 amended: the backward scan always terminates within a hard iteration
bound — 367 units of fuel already decide the result, and any larger fuel
computes the same value — and every count `get_streak` returns is at most
366 (not 365: the cap check runs after the increment). -/
theorem C3_termination_and_cap :
    (∀ (habit_name habit_type : String)
        (completions : List (String × List String)) (now : Date) (k : Nat),
      streakLoop habit_name habit_type completions (367 + k) now 0 =
        streakLoop habit_name habit_type completions 367 now 0) ∧
    (∀ (habit_name habit_type : String)
        (completions : List (String × List String)) (now : Date) (n : Nat),
      get_streak habit_name habit_type completions now = Except.ok n → n ≤ 366) :=
  ⟨fun hn ht cs now k =>
    streakLoop_fuel_indep hn ht cs (367 + k) 367 0 now (by omega) (by omega) (by omega),
   fun hn ht cs now n h => streakLoop_le hn ht cs 367 0 now n (by omega) h⟩

/-- C3 witness: the bound instantiated on the spec's three-day example,
whose returned count 3 is at most 366. -/
theorem C3_termination_and_cap_witness :
    get_streak ("h") ("daily")
      [(("2024-03-08"), [("h")]), (("2024-03-09"), [("h")]), (("2024-03-10"), [("h")])]
      ⟨2024, 3, 10⟩ = Except.ok 3 ∧ 3 ≤ 366 :=
  ⟨by decide,
   C3_termination_and_cap.2 ("h") ("daily")
     [(("2024-03-08"), [("h")]), (("2024-03-09"), [("h")]), (("2024-03-10"), [("h")])]
     ⟨2024, 3, 10⟩ 3 (by decide)⟩

/-- Running the streak loop below the cap consumes the completed walk one
period at a time and returns the accumulated count. -/
theorem streakLoop_walk (habit_name habit_type : String)
    (completions : List (String × List String)) :
    ∀ (N : Nat) (d : Date) (streak fuel : Nat),
      streak + N ≤ 366 → (N = 0 → streak ≤ 365) → N + 1 ≤ fuel →
      walk_completed habit_name habit_type completions d N = true →
      (∀ dN, date_after habit_type d N = some dN → streak + N ≤ 365 →
        completions_has completions (get_period_key habit_type dN) habit_name = false) →
      streakLoop habit_name habit_type completions fuel d streak =
        Except.ok (streak + N) := by
  intro N
  induction N with
  | zero =>
    intro d streak fuel h1 h2 h3 hwalk hgap
    cases fuel with
    | zero => omega
    | succ f =>
      have hnot := hgap d rfl (by omega)
      simp [streakLoop, hnot]
  | succ n ih =>
    intro d streak fuel h1 h2 h3 hwalk hgap
    cases fuel with
    | zero => omega
    | succ f =>
      rw [walk_completed, Bool.and_eq_true] at hwalk
      obtain ⟨hc, hrest⟩ := hwalk
      cases hs : stepBack habit_type d with
      | error e => rw [hs] at hrest; simp at hrest
      | ok d' =>
        rw [hs] at hrest
        simp only [streakLoop, hc, if_true, hs]
        by_cases hcap : streak + 1 > 365
        · rw [if_pos hcap]
          have hn0 : n = 0 := by omega
          subst hn0
          have h366 : streak + 1 = 366 := by omega
          simp [h366]
        · rw [if_neg hcap]
          have hres := ih d' (streak + 1) f (by omega) (by omega) (by omega) hrest ?_
          · rw [hres]
            congr 1
            omega
          · intro dN hdN hle
            apply hgap dN ?_ (by omega)
            rw [date_after, hs]
            exact hdN

/-- C1 counterexample: a monthly habit, "now" = 2024-03-31, the current
period "2024-03" completed and the preceding period "2024-02" not completed
satisfy the claim's hypotheses with N = 1, yet `get_streak` does not return
1: the backward month step asks `datetime.replace` for February 31 and
raises. -/
theorem C1_counterexample :
    completions_has [(("2024-03"), [("h")])]
      (get_period_key ("monthly") ⟨2024, 3, 31⟩) ("h") = true ∧
    completions_has [(("2024-03"), [("h")])] (("2024-02")) ("h") = false ∧
    get_streak ("h") ("monthly") [(("2024-03"), [("h")])] ⟨2024, 3, 31⟩ ≠
      Except.ok 1 :=
  ⟨by decide, by decide, by decide⟩

/-- C1 amended: for every cadence and every N between 1 and 366, if the
current period and the N - 1 periods behind it all hold a completion for the
habit, every backward step the loop takes on that walk succeeds (for daily
and weekly cadences the steps always succeed; for monthly this excludes the
`datetime.replace` failure at days 29-31), and, when N is at most 365, the
period reached after N steps holds no completion for the habit, then
`get_streak` returns exactly N.  The bound 366 is forced by the post-increment
cap: at N = 366 the loop stops by the cap without consulting the next
period. -/
theorem C1_streak_counts_walk (habit_name habit_type : String)
    (completions : List (String × List String)) (now : Date) (N : Nat)
    (h1 : 1 ≤ N) (h2 : N ≤ 366)
    (hwalk : walk_completed habit_name habit_type completions now N = true)
    (hgap : ∀ dN, date_after habit_type now N = some dN → N ≤ 365 →
      completions_has completions (get_period_key habit_type dN) habit_name = false) :
    get_streak habit_name habit_type completions now = Except.ok N := by
  have hmain := streakLoop_walk habit_name habit_type completions N now 0 367
    (by omega) (by omega) (by omega) hwalk ?_
  · rw [get_streak, hmain, Nat.zero_add]
  · intro dN hdN hle
    exact hgap dN hdN (by omega)

/-- C1 witness: the spec's example — daily cadence, "now" = 2024-03-10,
completions on 2024-03-08, 03-09 and 03-10 but not 03-07 — yields streak
3. -/
theorem C1_streak_counts_walk_witness :
    walk_completed ("h") ("daily")
      [(("2024-03-08"), [("h")]), (("2024-03-09"), [("h")]), (("2024-03-10"), [("h")])]
      ⟨2024, 3, 10⟩ 3 = true ∧
    get_streak ("h") ("daily")
      [(("2024-03-08"), [("h")]), (("2024-03-09"), [("h")]), (("2024-03-10"), [("h")])]
      ⟨2024, 3, 10⟩ = Except.ok 3 :=
  ⟨by decide,
   C1_streak_counts_walk ("h") ("daily")
     [(("2024-03-08"), [("h")]), (("2024-03-09"), [("h")]), (("2024-03-10"), [("h")])]
     ⟨2024, 3, 10⟩ 3 (by decide) (by decide) (by decide)
     (by
       intro dN hdN hle
       have hd : date_after ("daily") (⟨2024, 3, 10⟩ : Date) 3 =
           some ⟨2024, 3, 7⟩ := by decide
       rw [hd] at hdN
       injection hdN with hdN'
       subst hdN'
       decide)⟩

end HabitTracker
